import Mathlib

/-!
Shallow embedding of `base_definitions.h` from devcoons/c-base-definitions.

The header is a C definitions layer: a status-code enumeration (`i_status`),
a variable-type-tag enumeration (`var_type`), and a set of pure macros
(`iTIMEOUT`, `ARRAY_SIZE`, `MIN`, `MAX`, `CLAMP`, `SET_BIT`, `CLEAR_BIT`,
`TOGGLE_BIT`, `IS_BIT_SET`, `IS_BIT_CLEAR`).

Machine-integer conventions used by the embedding:
* C `unsigned int` is 32 bits wide; values are `Nat`s below `2 ^ 32` and
  arithmetic on them is taken modulo `2 ^ 32`.
* A C unsigned word of bit-width `w` is a `Nat` below `2 ^ w`; an assignment
  to such a word truncates modulo `2 ^ w`, mirroring C's conversion rules.
* `1U << bit` has no defined result in C when `bit ≥ 32` (C11 6.5.7p3), so
  the mask builder returns `Option Nat`, with `none` for the undefined case,
  and every bit macro propagates the undefinedness through `Option`.
-/

/-- Modulus of C `unsigned int` arithmetic (32-bit). -/
def M32 : Nat := 2 ^ 32

/-- `UINT_MAX` from `<limits.h>` for a 32-bit `unsigned int`. -/
def UINT_MAX : Nat := M32 - 1

/-- C unsigned 32-bit subtraction: `a - b` computed modulo `2 ^ 32`,
for operands `a b < 2 ^ 32`. -/
def usub32 (a b : Nat) : Nat := (M32 + a - b) % M32

/-- The `iTIMEOUT(start, current, timeout)` macro, line 52 of the header:
`(((start) < (current) ? (start) - (UINT_MAX - (current)) : (start) - (current)) < (timeout) ? 0 : 1)`
with all operands `unsigned int`. -/
def iTIMEOUT (start current timeout : Nat) : Nat :=
  if (if start < current
      then usub32 start (usub32 UINT_MAX current)
      else usub32 start current) < timeout
  then 0 else 1

/-- The `ARRAY_SIZE(arr)` macro, line 67: `sizeof(arr) / sizeof((arr)[0])`.
For an array of `n` elements each of size `elsize` bytes, `sizeof(arr)`
is `n * elsize` and `sizeof((arr)[0])` is `elsize`. -/
def ARRAY_SIZE (n elsize : Nat) : Nat := (n * elsize) / elsize

/-- The `MIN(a, b)` macro, line 74: `((a) < (b) ? (a) : (b))`. -/
def MIN (a b : Int) : Int := if a < b then a else b

/-- The `MAX(a, b)` macro, line 81: `((a) > (b) ? (a) : (b))`. -/
def MAX (a b : Int) : Int := if a > b then a else b

/-- The `CLAMP(val, min, max)` macro, line 88: `MAX((min), MIN((val), (max)))`. -/
def CLAMP (val lo hi : Int) : Int := MAX lo (MIN val hi)

/-- All-ones value of a 32-bit `unsigned int`; `~m` on an `unsigned int`
operand `m` is `allOnes32 ^^^ m`. -/
def allOnes32 : Nat := 2 ^ 32 - 1

/-- The mask `(1U << (bit))` shared by all bit macros. `1U` has type
`unsigned int` (32 bits), so the shift is well defined only for
`bit < 32`; for `bit ≥ 32` the C standard gives the expression no
defined result, embedded here as `none`. -/
def mask1U (bit : Nat) : Option Nat :=
  if bit < 32 then some ((1 <<< bit) % M32) else none

/-- The `SET_BIT(var, bit)` macro, line 95: `((var) |= (1U << (bit)))`,
on a word `var` of bit-width `w`. -/
def SET_BIT (w var bit : Nat) : Option Nat :=
  (mask1U bit).map fun m => (var ||| m) % 2 ^ w

/-- The `CLEAR_BIT(var, bit)` macro, line 102: `((var) &= ~(1U << (bit)))`,
on a word `var` of bit-width `w`; `~` complements within 32 bits and the
mask is zero-extended to the width of `var` by the usual conversions. -/
def CLEAR_BIT (w var bit : Nat) : Option Nat :=
  (mask1U bit).map fun m => (var &&& (allOnes32 ^^^ m)) % 2 ^ w

/-- The `TOGGLE_BIT(var, bit)` macro, line 109: `((var) ^= (1U << (bit)))`,
on a word `var` of bit-width `w`. -/
def TOGGLE_BIT (w var bit : Nat) : Option Nat :=
  (mask1U bit).map fun m => (var ^^^ m) % 2 ^ w

/-- The `IS_BIT_SET(var, bit)` macro, line 116: `(((var) & (1U << (bit))) != 0)`. -/
def IS_BIT_SET (var bit : Nat) : Option Bool :=
  (mask1U bit).map fun m => decide ((var &&& m) ≠ 0)

/-- The `IS_BIT_CLEAR(var, bit)` macro, line 123: `(((var) & (1U << (bit))) == 0)`. -/
def IS_BIT_CLEAR (var bit : Nat) : Option Bool :=
  (mask1U bit).map fun m => decide ((var &&& m) = 0)

/-- The comment-delimited groups of the `i_status` enumeration
(lines 134, 146, 153, 158, 167, 174 of the header). -/
inductive StatusGroup
  | General
  | MemAlign
  | Access
  | Activity
  | Debug
  | Reserved
deriving DecidableEq

/-- One enumerator declaration of the `i_status` enumeration: its symbolic
name, its assigned numeric value, and the group it is declared under. -/
structure StatusEntry where
  sname : String
  code : Nat
  group : StatusGroup
deriving DecidableEq

/-- The `i_status` enumeration, lines 133-177, as the list of its
enumerator declarations in source order (the source declares the name
`STATUS_BUSY` twice, with values `0x04` and `0x37`; a list of
declarations, rather than an inductive type, is the faithful embedding). -/
def i_status : List StatusEntry := [
  ⟨"STATUS_OK", 0x01, .General⟩,
  ⟨"STATUS_ERROR", 0x02, .General⟩,
  ⟨"STATUS_TIMEOUT", 0x03, .General⟩,
  ⟨"STATUS_BUSY", 0x04, .General⟩,
  ⟨"STATUS_IDLE", 0x05, .General⟩,
  ⟨"STATUS_NOT_FOUND", 0x06, .General⟩,
  ⟨"STATUS_UNSUPPORTED", 0x07, .General⟩,
  ⟨"STATUS_INITIALIZED", 0x08, .General⟩,
  ⟨"STATUS_NOT_INITIALIZED", 0x09, .General⟩,
  ⟨"STATUS_IN_PROGRESS", 0x0A, .General⟩,
  ⟨"STATUS_COMPLETED", 0x0B, .General⟩,
  ⟨"STATUS_MEM_ALIGNED", 0x10, .MemAlign⟩,
  ⟨"STATUS_MEM_UNALIGNED", 0x11, .MemAlign⟩,
  ⟨"STATUS_MEM_FULL", 0x12, .MemAlign⟩,
  ⟨"STATUS_MEM_EMPTY", 0x13, .MemAlign⟩,
  ⟨"STATUS_OVERFLOW", 0x14, .MemAlign⟩,
  ⟨"STATUS_UNDERFLOW", 0x15, .MemAlign⟩,
  ⟨"STATUS_ACCESS_GRANTED", 0x20, .Access⟩,
  ⟨"STATUS_ACCESS_DENIED", 0x21, .Access⟩,
  ⟨"STATUS_LOCKED", 0x22, .Access⟩,
  ⟨"STATUS_UNLOCKED", 0x23, .Access⟩,
  ⟨"STATUS_ACTIVE", 0x30, .Activity⟩,
  ⟨"STATUS_INACTIVE", 0x31, .Activity⟩,
  ⟨"STATUS_STOPPED", 0x32, .Activity⟩,
  ⟨"STATUS_RUNNING", 0x33, .Activity⟩,
  ⟨"STATUS_SLEEPING", 0x34, .Activity⟩,
  ⟨"STATUS_STANDBY", 0x35, .Activity⟩,
  ⟨"STATUS_NOT_READY", 0x36, .Activity⟩,
  ⟨"STATUS_BUSY", 0x37, .Activity⟩,
  ⟨"STATUS_WARNING", 0x40, .Debug⟩,
  ⟨"STATUS_SELF_TEST_PASS", 0xC0, .Debug⟩,
  ⟨"STATUS_SELF_TEST_FAIL", 0xC1, .Debug⟩,
  ⟨"STATUS_DEBUG_1", 0xE1, .Debug⟩,
  ⟨"STATUS_DEBUG_2", 0xE2, .Debug⟩,
  ⟨"STATUS_DEBUG_3", 0xE3, .Debug⟩,
  ⟨"STATUS_NOT_IMPLEMENTED", 0xFD, .Reserved⟩,
  ⟨"STATUS_UNKNOWN", 0xFE, .Reserved⟩]

/-- All numeric values the `i_status` enumeration assigns to a given
symbolic name, in declaration order. -/
def statusValuesOf (n : String) : List Nat :=
  (i_status.filter fun e => e.sname == n).map fun e => e.code

/-- The `var_type` enumeration, lines 182-199 of the header. -/
inductive var_type
  | VAR_TYPE_U8
  | VAR_TYPE_I8
  | VAR_TYPE_U16
  | VAR_TYPE_I16
  | VAR_TYPE_U32
  | VAR_TYPE_I32
  | VAR_TYPE_U64
  | VAR_TYPE_I64
  | VAR_TYPE_U8_ARR
  | VAR_TYPE_I8_ARR
  | VAR_TYPE_U16_ARR
  | VAR_TYPE_I16_ARR
  | VAR_TYPE_U32_ARR
  | VAR_TYPE_I32_ARR
  | VAR_TYPE_U64_ARR
  | VAR_TYPE_I64_ARR
deriving DecidableEq, Fintype

/-- The numeric value each `var_type` enumerator is assigned in the source. -/
def varTypeVal : var_type → Nat
  | .VAR_TYPE_U8 => 0x01
  | .VAR_TYPE_I8 => 0x11
  | .VAR_TYPE_U16 => 0x02
  | .VAR_TYPE_I16 => 0x12
  | .VAR_TYPE_U32 => 0x04
  | .VAR_TYPE_I32 => 0x14
  | .VAR_TYPE_U64 => 0x08
  | .VAR_TYPE_I64 => 0x18
  | .VAR_TYPE_U8_ARR => 0x21
  | .VAR_TYPE_I8_ARR => 0x31
  | .VAR_TYPE_U16_ARR => 0x22
  | .VAR_TYPE_I16_ARR => 0x32
  | .VAR_TYPE_U32_ARR => 0x24
  | .VAR_TYPE_I32_ARR => 0x34
  | .VAR_TYPE_U64_ARR => 0x28
  | .VAR_TYPE_I64_ARR => 0x38

/-- Width in bytes that each enumerator's NAME documents (`U8`/`I8` are
8-bit so 1 byte, ..., `U64`/`I64` are 64-bit so 8 bytes; `_ARR` variants
have elements of the same width). -/
def nameWidthBytes : var_type → Nat
  | .VAR_TYPE_U8 | .VAR_TYPE_I8 | .VAR_TYPE_U8_ARR | .VAR_TYPE_I8_ARR => 1
  | .VAR_TYPE_U16 | .VAR_TYPE_I16 | .VAR_TYPE_U16_ARR | .VAR_TYPE_I16_ARR => 2
  | .VAR_TYPE_U32 | .VAR_TYPE_I32 | .VAR_TYPE_U32_ARR | .VAR_TYPE_I32_ARR => 4
  | .VAR_TYPE_U64 | .VAR_TYPE_I64 | .VAR_TYPE_U64_ARR | .VAR_TYPE_I64_ARR => 8

/-- Signedness that each enumerator's NAME documents (`I...` variants). -/
def nameSigned : var_type → Bool
  | .VAR_TYPE_I8 | .VAR_TYPE_I16 | .VAR_TYPE_I32 | .VAR_TYPE_I64 => true
  | .VAR_TYPE_I8_ARR | .VAR_TYPE_I16_ARR | .VAR_TYPE_I32_ARR | .VAR_TYPE_I64_ARR => true
  | _ => false

/-- Arity that each enumerator's NAME documents (`_ARR` variants). -/
def nameIsArray : var_type → Bool
  | .VAR_TYPE_U8_ARR | .VAR_TYPE_I8_ARR | .VAR_TYPE_U16_ARR | .VAR_TYPE_I16_ARR => true
  | .VAR_TYPE_U32_ARR | .VAR_TYPE_I32_ARR | .VAR_TYPE_U64_ARR | .VAR_TYPE_I64_ARR => true
  | _ => false

/-- Decode the width facet of a raw tag value: the low nibble. -/
def decodeWidth (v : Nat) : Nat := v &&& 0xF

/-- Decode the signedness facet of a raw tag value: bit `0x10`. -/
def decodeSigned (v : Nat) : Bool := decide (v &&& 0x10 ≠ 0)

/-- Decode the arity facet of a raw tag value: bit `0x20`. -/
def decodeArray (v : Nat) : Bool := decide (v &&& 0x20 ≠ 0)

/-- Band of numeric values that §3 of the specification assigns to each
group of the `i_status` enumeration. -/
def inAssignedBand (g : StatusGroup) (v : Nat) : Prop :=
  match g with
  | .General => 0x01 ≤ v ∧ v ≤ 0x0B
  | .MemAlign => 0x10 ≤ v ∧ v ≤ 0x15
  | .Access => 0x20 ≤ v ∧ v ≤ 0x23
  | .Activity => 0x30 ≤ v ∧ v ≤ 0x37
  | .Debug => v = 0x40 ∨ (0xC0 ≤ v ∧ v ≤ 0xC1) ∨ (0xE1 ≤ v ∧ v ≤ 0xE3)
  | .Reserved => 0xFD ≤ v ∧ v ≤ 0xFE

instance (g : StatusGroup) (v : Nat) : Decidable (inAssignedBand g v) :=
  match g with
  | .General => inferInstanceAs (Decidable (0x01 ≤ v ∧ v ≤ 0x0B))
  | .MemAlign => inferInstanceAs (Decidable (0x10 ≤ v ∧ v ≤ 0x15))
  | .Access => inferInstanceAs (Decidable (0x20 ≤ v ∧ v ≤ 0x23))
  | .Activity => inferInstanceAs (Decidable (0x30 ≤ v ∧ v ≤ 0x37))
  | .Debug =>
      inferInstanceAs (Decidable (v = 0x40 ∨ (0xC0 ≤ v ∧ v ≤ 0xC1) ∨ (0xE1 ≤ v ∧ v ≤ 0xE3)))
  | .Reserved => inferInstanceAs (Decidable (0xFD ≤ v ∧ v ≤ 0xFE))

/-- C1: evaluation of the `iTIMEOUT` macro at the specification's worked
examples. The claim requires `iTIMEOUT 100 130 40 = 0` (elapsed 30 < 40,
not expired) and `iTIMEOUT (UINT_MAX - 10) 5 20 = 0` (wraparound elapsed
15 < 20, not expired); the code returns 1 (expired) at both, because its
branches compute `start - (UINT_MAX - current)` and `start - current`
rather than the elapsed time `current - start`. -/
theorem iTIMEOUT_examples_vs_claim :
    iTIMEOUT 100 150 40 = 1 ∧ iTIMEOUT 100 130 40 = 1 ∧
    iTIMEOUT (UINT_MAX - 10) 5 20 = 1 :=
  ⟨rfl, rfl, rfl⟩

/-- C2: the `i_status` enumeration declares the symbolic name `STATUS_BUSY`
twice, assigning it the two different values `0x04` and `0x37`, so not
every symbolic name maps to exactly one numeric value. -/
theorem status_busy_two_values : statusValuesOf "STATUS_BUSY" = [0x04, 0x37] := by
  decide

/-- C5: for `lo ≤ hi`, `CLAMP` returns `lo` when the value is below the
range, `hi` when it is above, and the value itself when it lies inside. -/
theorem CLAMP_within_bounds (val lo hi : Int) (h : lo ≤ hi) :
    CLAMP val lo hi = if val < lo then lo else if hi < val then hi else val := by
  unfold CLAMP MAX MIN
  split_ifs <;> omega

/-- Witness for `CLAMP_within_bounds` at `val = 15, lo = 0, hi = 10`. -/
theorem CLAMP_within_bounds_witness : CLAMP 15 0 10 = 10 := by
  have h := CLAMP_within_bounds 15 0 10 (by norm_num)
  norm_num at h
  exact h

/-- C7: `MIN` returns the lesser and `MAX` the greater of its two
arguments, and on equal arguments each returns that common value. -/
theorem MIN_MAX_correct (a b : Int) :
    MIN a b = min a b ∧ MAX a b = max a b ∧ MIN a a = a ∧ MAX a a = a := by
  simp only [MIN, MAX, min_def, max_def, gt_iff_lt]
  refine ⟨?_, ?_, ?_, ?_⟩ <;> split_ifs <;> omega

/-- C8: on an array of `n` elements, each of any positive size `elsize`
bytes, `ARRAY_SIZE` returns the element count `n`. -/
theorem ARRAY_SIZE_count (n elsize : Nat) (h : 0 < elsize) :
    ARRAY_SIZE n elsize = n := by
  unfold ARRAY_SIZE
  exact Nat.mul_div_cancel n h

/-- Witness for `ARRAY_SIZE_count`: a fixed sequence of 7 elements of
4 bytes each has `ARRAY_SIZE` 7. -/
theorem ARRAY_SIZE_count_witness : ARRAY_SIZE 7 4 = 7 :=
  ARRAY_SIZE_count 7 4 (by decide)

/-- C3: distinct `var_type` enumerators carry distinct numeric values, and
for every enumerator the three facets decoded from its value purely by bit
masking (low nibble width, bit `0x10` signedness, bit `0x20` arity) match
the facets its name documents, the width being one of 1, 2, 4, 8 bytes. -/
theorem var_type_distinct_and_decodes :
    (∀ t1 t2 : var_type, t1 ≠ t2 → varTypeVal t1 ≠ varTypeVal t2) ∧
    (∀ t : var_type,
      decodeWidth (varTypeVal t) = nameWidthBytes t ∧
      (nameWidthBytes t = 1 ∨ nameWidthBytes t = 2 ∨
        nameWidthBytes t = 4 ∨ nameWidthBytes t = 8) ∧
      decodeSigned (varTypeVal t) = nameSigned t ∧
      decodeArray (varTypeVal t) = nameIsArray t) := by
  decide

/-- Witness for `var_type_distinct_and_decodes`: `VAR_TYPE_U8` and
`VAR_TYPE_I8` are distinct enumerators with distinct values, and
`VAR_TYPE_I32_ARR` (value `0x34`) decodes to the width its name documents. -/
theorem var_type_distinct_and_decodes_witness :
    varTypeVal var_type.VAR_TYPE_U8 ≠ varTypeVal var_type.VAR_TYPE_I8 ∧
    decodeWidth (varTypeVal var_type.VAR_TYPE_I32_ARR) =
      nameWidthBytes var_type.VAR_TYPE_I32_ARR :=
  ⟨var_type_distinct_and_decodes.1 var_type.VAR_TYPE_U8 var_type.VAR_TYPE_I8
      (by decide),
    (var_type_distinct_and_decodes.2 var_type.VAR_TYPE_I32_ARR).1⟩

/-- C6: every enumerator of `i_status` has a value below 256 and inside
the band §3 of the specification assigns to its group. -/
theorem status_codes_in_bands :
    ∀ e ∈ i_status, e.code < 256 ∧ inAssignedBand e.group e.code := by
  decide

/-- Witness for `status_codes_in_bands` at the first enumerator,
`STATUS_OK = 0x01` of the general band. -/
theorem status_codes_in_bands_witness :
    (0x01 : Nat) < 256 ∧ inAssignedBand StatusGroup.General 0x01 :=
  status_codes_in_bands ⟨"STATUS_OK", 0x01, .General⟩ (by decide)

/-- For an index below 32 the mask `1U << bit` is defined and equals `2 ^ bit`. -/
theorem mask1U_eq_of_lt (bit : Nat) (h : bit < 32) : mask1U bit = some (2 ^ bit) := by
  unfold mask1U M32
  rw [if_pos h, Nat.one_shiftLeft,
    Nat.mod_eq_of_lt (Nat.pow_lt_pow_of_lt (by norm_num) h)]

/-- C4 (amended): for a word of bit-width `w` and an index below both `w`
and 32 (the bit-width of the `1U` mask), set-then-test reads the bit as
set, clear-then-test reads it as clear, and toggling twice restores the
original word. -/
theorem bit_roundtrip_below_32 (w var bit : Nat) (hv : var < 2 ^ w)
    (hbw : bit < w) (hb32 : bit < 32) :
    ((SET_BIT w var bit).bind fun v => IS_BIT_SET v bit) = some true ∧
    ((CLEAR_BIT w var bit).bind fun v => IS_BIT_CLEAR v bit) = some true ∧
    ((TOGGLE_BIT w var bit).bind fun v => TOGGLE_BIT w v bit) = some var := by
  have hm : 2 ^ bit < 2 ^ w := Nat.pow_lt_pow_of_lt (by norm_num) hbw
  have hor : (var ||| 2 ^ bit) < 2 ^ w := Nat.or_lt_two_pow hv hm
  have hand : (var &&& (allOnes32 ^^^ 2 ^ bit)) < 2 ^ w :=
    lt_of_le_of_lt Nat.and_le_left hv
  have hxor : (var ^^^ 2 ^ bit) < 2 ^ w := Nat.xor_lt_two_pow hv hm
  refine ⟨?_, ?_, ?_⟩
  · simp only [SET_BIT, IS_BIT_SET, mask1U_eq_of_lt bit hb32, Option.map_some',
      Option.some_bind, Nat.mod_eq_of_lt hor, Option.some.injEq, decide_eq_true_eq]
    rw [Nat.and_two_pow]
    have ht : (var ||| 2 ^ bit).testBit bit = true := by
      simp [Nat.testBit_or, Nat.testBit_two_pow_self]
    rw [ht]
    simp [(pow_pos (by norm_num : (0:Nat) < 2) bit).ne']
  · simp only [CLEAR_BIT, IS_BIT_CLEAR, mask1U_eq_of_lt bit hb32, Option.map_some',
      Option.some_bind, Nat.mod_eq_of_lt hand, Option.some.injEq, decide_eq_true_eq]
    rw [Nat.and_two_pow]
    have h1 : allOnes32.testBit bit = true := by
      rw [allOnes32, Nat.testBit_two_pow_sub_one]
      simpa using hb32
    have hc : (var &&& (allOnes32 ^^^ 2 ^ bit)).testBit bit = false := by
      simp [Nat.testBit_and, Nat.testBit_xor, h1, Nat.testBit_two_pow_self]
    rw [hc]
    simp
  · simp only [TOGGLE_BIT, mask1U_eq_of_lt bit hb32, Option.map_some',
      Option.some_bind, Nat.mod_eq_of_lt hxor, Option.some.injEq]
    rw [Nat.xor_cancel_right, Nat.mod_eq_of_lt hv]

/-- Witness for `bit_roundtrip_below_32`: an 8-bit word 0 at index 3. -/
theorem bit_roundtrip_below_32_witness :
    ((SET_BIT 8 0 3).bind fun v => IS_BIT_SET v 3) = some true ∧
    ((CLEAR_BIT 8 0 3).bind fun v => IS_BIT_CLEAR v 3) = some true ∧
    ((TOGGLE_BIT 8 0 3).bind fun v => TOGGLE_BIT 8 v 3) = some 0 :=
  bit_roundtrip_below_32 8 0 3 (by decide) (by decide) (by decide)

/-- Counterexample to C4 as stated: on a 64-bit word, index 32 is below
the word's bit-width, yet set-then-test yields no defined result at all
(the 32-bit `1U` mask is undefined there) instead of `some true`, and
toggling twice is likewise undefined instead of the original word. -/
theorem bit_roundtrip_fails_at_32 :
    ((SET_BIT 64 0 32).bind fun v => IS_BIT_SET v 32) = none ∧
    ((TOGGLE_BIT 64 0 32).bind fun v => TOGGLE_BIT 64 v 32) = none := by
  decide

/-- C9: for any word wider than 32 bits and any index from 32 up to the
word's bit-width, every bit macro has no defined result — the 32-bit `1U`
mask cannot address such indices, so only indices 0-31 are usable. -/
theorem bit_ops_mask_width_limit (w var bit : Nat) (_hw : 32 < w)
    (hlo : 32 ≤ bit) (_hhi : bit < w) :
    SET_BIT w var bit = none ∧ CLEAR_BIT w var bit = none ∧
    TOGGLE_BIT w var bit = none ∧ IS_BIT_SET var bit = none ∧
    IS_BIT_CLEAR var bit = none := by
  have hm : mask1U bit = none := by
    unfold mask1U
    rw [if_neg (Nat.not_lt.mpr hlo)]
  simp [SET_BIT, CLEAR_BIT, TOGGLE_BIT, IS_BIT_SET, IS_BIT_CLEAR, hm]

/-- Witness for `bit_ops_mask_width_limit`: a 64-bit word at index 32. -/
theorem bit_ops_mask_width_limit_witness :
    SET_BIT 64 0 32 = none ∧ CLEAR_BIT 64 0 32 = none ∧
    TOGGLE_BIT 64 0 32 = none ∧ IS_BIT_SET 0 32 = none ∧
    IS_BIT_CLEAR 0 32 = none :=
  bit_ops_mask_width_limit 64 0 32 (by decide) (by decide) (by decide)

/-- C10: for any word and any index below 32, `IS_BIT_SET` and
`IS_BIT_CLEAR` return opposite booleans: exactly one of the two holds. -/
theorem is_bit_set_clear_opposite (var bit : Nat) (h : bit < 32) :
    (IS_BIT_SET var bit = some true ∧ IS_BIT_CLEAR var bit = some false) ∨
    (IS_BIT_SET var bit = some false ∧ IS_BIT_CLEAR var bit = some true) := by
  simp only [IS_BIT_SET, IS_BIT_CLEAR, mask1U_eq_of_lt bit h, Option.map_some']
  by_cases hz : var &&& 2 ^ bit = 0
  · right
    simp [hz]
  · left
    simp [hz]

/-- Witness for `is_bit_set_clear_opposite` at word 5, index 0. -/
theorem is_bit_set_clear_opposite_witness :
    (IS_BIT_SET 5 0 = some true ∧ IS_BIT_CLEAR 5 0 = some false) ∨
    (IS_BIT_SET 5 0 = some false ∧ IS_BIT_CLEAR 5 0 = some true) :=
  is_bit_set_clear_opposite 5 0 (by decide)
